import Mathlib

/-!
Verification of the eir patient/observation import service.

The definitions below are a shallow embedding of `app/main.py`,
`app/models.py` and `app/auth/dependencies.py`: the relational store is a
pair of row lists with surrogate-key counters, the external FHIR registry
is an environment mapping queries to parsed responses (or transport
failures), and each endpoint body becomes a state-passing function whose
`Except` component records an escaping Python exception.  Committed writes
survive a later exception, exactly as the per-row `session.commit()` calls
in the source do.
-/

namespace Eir

/-- ASCII whitespace as stripped by Python `str.strip()`. -/
def pyIsSpace (c : Char) : Bool :=
  c == ' ' || c == '\t' || c == '\n' || c == '\r' ||
    c == Char.ofNat 11 || c == Char.ofNat 12

/-- Model of Python `str.strip()`: drop leading and trailing whitespace. -/
def pyStrip (s : String) : String :=
  String.mk (((s.data.dropWhile pyIsSpace).reverse.dropWhile pyIsSpace).reverse)

/-- Python truthiness of an optional string: `None` and `""` are falsy. -/
def pyTruthy (o : Option String) : Bool :=
  match o with
  | none => false
  | some s => !(s == "")

/-- Row of the `patient` table (`app/models.py`, class `Patient`).
`id` is the storage-assigned surrogate key; `patient_id` is the external
registry identifier.  `patient_id`, `first_name`, `gender` and `birth_date`
are declared as required (non-`Optional`) fields, which SQLModel maps to
NOT NULL columns: a committed row therefore always carries strings, and a
`None` value is rejected at commit time (see `insertPatient`). -/
structure PatientRow where
  id : Nat
  patient_id : String
  first_name : String
  gender : String
  birth_date : String
deriving Repr, DecidableEq

/-- Row of the `observation` table (`app/models.py`, class `Observation`).
`patient_id` is the foreign key to `PatientRow.id`. -/
structure ObservationRow where
  id : Nat
  patient_id : Option Nat
  resource_type : String
  status : String
deriving Repr, DecidableEq

/-- The relational store: the two tables plus surrogate-key counters. -/
structure Store where
  patients : List PatientRow
  observations : List ObservationRow
  nextPatientId : Nat
  nextObservationId : Nat
deriving Repr, DecidableEq

def emptyStore : Store := ⟨[], [], 1, 1⟩

/-- One element of a FHIR `name` list; only `given` is ever read. -/
structure HumanName where
  given : Option (List String)
deriving Repr, DecidableEq

/-- The fields of a registry Patient resource that the import reads. -/
structure PatientResource where
  id : Option String
  name : Option (List HumanName)
  gender : Option String
  birthDate : Option String
deriving Repr, DecidableEq

/-- One `entry` wrapper of a registry Patient bundle. -/
structure PatientEntry where
  resource : Option PatientResource
deriving Repr, DecidableEq

/-- A registry Patient search response (`entry` may be absent). -/
structure PatientBundle where
  entry : Option (List PatientEntry)
deriving Repr, DecidableEq

/-- The fields of a registry Observation resource that the import reads. -/
structure ObsResource where
  resourceType : Option String
  status : Option String
deriving Repr, DecidableEq

/-- One `entry` wrapper of a registry Observation bundle. -/
structure ObsEntry where
  resource : Option ObsResource
deriving Repr, DecidableEq

/-- A registry Observation search response: `total` and `entry` may each be
absent. -/
structure ObsBundle where
  total : Option Int
  entry : Option (List ObsEntry)
deriving Repr, DecidableEq

/-- The ways an external registry call can fail: network error,
non-2xx status (raised by `raise_for_status`), or a malformed body
(raised by `.json()`). -/
inductive RegistryFailure where
  | network
  | httpStatus (code : Nat)
  | malformedBody
deriving Repr, DecidableEq

/-- An exception escaping an endpoint body: a registry failure, the
`IndexError` raised by subscripting an empty list, or the `IntegrityError`
raised by `session.commit()` when a NOT NULL column receives `None`. -/
inductive PyExn where
  | registry (f : RegistryFailure)
  | indexError
  | integrityError
deriving Repr, DecidableEq

/-- The external registry environment: the Patient query is keyed by the
postal code, the Observation query by its `subject` parameter. -/
structure Registry where
  patientResponse : String → Except RegistryFailure PatientBundle
  obsResponse : String → Except RegistryFailure ObsBundle

def emptyResource : PatientResource := ⟨none, none, none, none⟩

/-- `entry.get("resource", {})`. -/
def entryResource (e : PatientEntry) : PatientResource :=
  e.resource.getD emptyResource

/-- Lines 57-58 of `app/main.py`:
`given_names = resource.get("name", [{}])[0].get("given", [])` and
`first_name = given_names[0] if given_names else ""`.
When `name` is present but an empty list, the subscript `[0]` raises
`IndexError` (the `[{}]` default only applies when the key is absent). -/
def extractFirstNameRaw (res : PatientResource) : Except PyExn String :=
  match res.name with
  | none =>
    -- name absent: default [{}], whose head has no "given" key, so "".
    .ok ""
  | some [] => .error .indexError
  | some (n :: _) =>
    match n.given.getD [] with
    | [] => .ok ""
    | g :: _ => .ok g

/-- Total description of the same extraction on inputs where it does not
raise; used to state what the loop stores. -/
def pyFirstNameOf (res : PatientResource) : String :=
  match res.name with
  | none => ""
  | some [] => ""
  | some (n :: _) =>
    match n.given.getD [] with
    | [] => ""
    | g :: _ => g

/-- `session.get(Patient, patient_id)`: primary-key lookup. -/
def storeGetPatient (s : Store) (pid : Nat) : Option PatientRow :=
  s.patients.find? (fun p => p.id == pid)

/-- `session.add(patient); session.commit(); session.refresh(patient)`:
commit the row under a fresh surrogate key and return that key.  The
`Patient` model's non-`Optional` fields are NOT NULL columns, so when the
external id, gender or birth date passed through as `None` the commit
raises `IntegrityError` and nothing is written (`first_name` is always a
string after extraction).  Construction itself never fails: SQLModel table
models skip validation. -/
def insertPatient (s : Store) (pid : Option String) (fn : String)
    (g bd : Option String) : Except PyExn (Store × Nat) :=
  match pid, g, bd with
  | some pid, some g, some bd =>
    .ok (⟨s.patients ++ [⟨s.nextPatientId, pid, fn, g, bd⟩], s.observations,
      s.nextPatientId + 1, s.nextObservationId⟩, s.nextPatientId)
  | _, _, _ => .error .integrityError

/-- `session.add(observation); session.commit()`. -/
def insertObservation (s : Store) (pid : Option Nat) (rt st : String) : Store :=
  ⟨s.patients, s.observations ++ [⟨s.nextObservationId, pid, rt, st⟩],
    s.nextPatientId, s.nextObservationId + 1⟩

/-- The `subject` parameter of the Observation query:
`f"Patient/{patient.patient_id}"` (a stored external id is never NULL). -/
def subjectKey (p : PatientRow) : String := "Patient/" ++ p.patient_id

/-- Lines 111-124 of `app/main.py`: the defaults `("unknown", "empty")`,
overridden from the first entry when
`observations_data.get("total", 0) > 0 and "entry" in observations_data`;
subscripting a present-but-empty `entry` list raises `IndexError`. -/
def firstObservationFields (data : ObsBundle) : Except PyExn (String × String) :=
  if (data.total.getD 0) > 0 ∧ data.entry.isSome then
    match data.entry.getD [] with
    | [] => .error .indexError
    | e :: _ =>
      let res := e.resource.getD ⟨none, none⟩
      .ok (res.resourceType.getD "unknown", res.status.getD "unknown")
  else
    .ok ("unknown", "empty")

/-- `fetch_and_store_first_observation` (`app/main.py`, lines 90-134):
resolve the patient by surrogate key (informational message when absent),
query the registry, and insert exactly one observation row — the first
entry's fields, or the `("unknown", "empty")` sentinel. -/
def fetch_and_store_first_observation (reg : Registry) (patient_id : Nat)
    (s : Store) : Store × Except PyExn (Option String) :=
  match storeGetPatient s patient_id with
  | none =>
    (s, .ok (some ("Patient with ID " ++ toString patient_id ++ " not found.")))
  | some patient =>
    match reg.obsResponse (subjectKey patient) with
    | .error f => (s, .error (.registry f))
    | .ok data =>
      match firstObservationFields data with
      | .error e => (s, .error e)
      | .ok (rt, st) => (insertObservation s (some patient.id) rt st, .ok none)

/-- The patient loop of `fetch_and_store_patients_by_postal_code`
(lines 53-77): per entry, extract the candidate fields, skip the entry when
a row with the same external id already exists (`patient_id == None`
renders as IS NULL and matches no stored row, the column being NOT NULL),
otherwise commit and record the new surrogate key.  Each insertion is
committed immediately, so rows written before a raised exception survive
it; a commit that raises `IntegrityError` writes nothing. -/
def storePatientsLoop (s : Store) (entries : List PatientEntry)
    (saved : List Nat) : Store × Except PyExn (List Nat) :=
  match entries with
  | [] => (s, .ok saved)
  | e :: rest =>
    let res := entryResource e
    match extractFirstNameRaw res with
    | .error err => (s, .error err)
    | .ok fn =>
      match s.patients.find? (fun p => some p.patient_id == res.id) with
      | some _ => storePatientsLoop s rest saved
      | none =>
        match insertPatient s res.id (pyStrip fn) res.gender res.birthDate with
        | .error err => (s, .error err)
        | .ok out => storePatientsLoop out.1 rest (saved ++ [out.2])

/-- The observation loop of `fetch_and_store_patients_by_postal_code`
(lines 80-81): one observation import per newly created patient. -/
def storeObservationsLoop (reg : Registry) (s : Store) (ids : List Nat) :
    Store × Except PyExn Unit :=
  match ids with
  | [] => (s, .ok ())
  | pid :: rest =>
    match fetch_and_store_first_observation reg pid s with
    | (s1, .error e) => (s1, .error e)
    | (s1, .ok _) => storeObservationsLoop reg s1 rest

/-- The success payload of the patient import endpoint. -/
structure ImportResult where
  message : String
  total_saved : Nat
  saved_patient_ids : List Nat
deriving Repr, DecidableEq

/-- `fetch_and_store_patients_by_postal_code` (`app/main.py`, lines 36-87):
fetch the Patient bundle for the postal code, run the de-duplicating
patient loop, import one observation per new patient, and report the new
surrogate keys. -/
def fetch_and_store_patients_by_postal_code (reg : Registry)
    (postal_code : String) (s : Store) : Store × Except PyExn ImportResult :=
  match reg.patientResponse postal_code with
  | .error f => (s, .error (.registry f))
  | .ok bundle =>
    match storePatientsLoop s (bundle.entry.getD []) [] with
    | (s1, .error e) => (s1, .error e)
    | (s1, .ok saved) =>
      match storeObservationsLoop reg s1 saved with
      | (s2, .error e) => (s2, .error e)
      | (s2, .ok _) =>
        (s2, .ok ⟨"Patients from postal code " ++ postal_code ++
                    " processed successfully.", saved.length, saved⟩)

/-- HTTP-level outcome of the patient search endpoint. -/
inductive SearchResp where
  | badRequest (detail : String)
  | notFound (detail : String)
  | ok (rows : List PatientRow)
deriving Repr, DecidableEq

/-- `search_patients` (`app/main.py`, lines 139-165).  Note the Python
truthiness tests: a filter passed as the empty string behaves exactly like
an absent filter. -/
def search_patients (patient_id first_name : Option String) (s : Store) :
    SearchResp :=
  if !pyTruthy patient_id && !pyTruthy first_name then
    .badRequest "Either 'patient_id' or 'first_name' must be provided."
  else
    let rows :=
      if pyTruthy patient_id && pyTruthy first_name then
        s.patients.filter (fun p =>
          p.patient_id == patient_id.getD "" &&
          p.first_name == first_name.getD "")
      else if pyTruthy patient_id then
        s.patients.filter (fun p => p.patient_id == patient_id.getD "")
      else
        s.patients.filter (fun p => p.first_name == first_name.getD "")
    if rows.isEmpty then .notFound "No matching patients found." else .ok rows

/-- A 401 response: status, detail, and the challenge header value. -/
structure AuthFailureResp where
  status : Nat
  detail : String
  wwwAuthenticate : Option String
deriving Repr, DecidableEq

/-- Verified token claims; their structure is irrelevant to the gate. -/
abbrev Claims := List (String × String)

/-- `get_current_user` (`app/auth/dependencies.py`) together with the
`OAuth2PasswordBearer` dependency it wraps: a missing bearer token is
rejected by the scheme with 401 "Not authenticated" and a
`WWW-Authenticate: Bearer` header; a present token is passed to the
(out-of-scope, hence abstract) `verify_token`, whose `ValueError` message
becomes the 401 detail, again with the challenge header. -/
def get_current_user (verify_token : String → Except String Claims)
    (token : Option String) : Except AuthFailureResp Claims :=
  match token with
  | none => .error ⟨401, "Not authenticated", some "Bearer"⟩
  | some t =>
    match verify_token t with
    | .ok payload => .ok payload
    | .error e => .error ⟨401, e, some "Bearer"⟩

/-- Outcome of a guarded endpoint: rejected by the gate, or handled. -/
inductive Guarded (α : Type) where
  | unauthorized (r : AuthFailureResp)
  | handled (a : α)

/-- The patient search endpoint behind the access gate: FastAPI resolves the
`get_current_user` dependency before the handler body runs, so a rejected
token short-circuits with the store untouched. -/
def guardedSearchPatients (verify_token : String → Except String Claims)
    (token : Option String) (patient_id first_name : Option String)
    (s : Store) : Guarded SearchResp × Store :=
  match get_current_user verify_token token with
  | .error r => (.unauthorized r, s)
  | .ok _ => (.handled (search_patients patient_id first_name s), s)

/-- The patient import endpoint behind the access gate. -/
def guardedImportPatients (verify_token : String → Except String Claims)
    (token : Option String) (reg : Registry) (postal_code : String)
    (s : Store) : Guarded (Except PyExn ImportResult) × Store :=
  match get_current_user verify_token token with
  | .error r => (.unauthorized r, s)
  | .ok _ =>
    let out := fetch_and_store_patients_by_postal_code reg postal_code s
    (.handled out.2, out.1)

/-- Modelled from the spec: the standalone single-observation import route
`POST /imports/observations/...` of the interface section is not present in
the source tree (the only related code, `fetch_and_store_first_observation`,
is the unrouted cascading helper).  Per the spec the route resolves the
patient, queries the registry, and either stores the first returned
observation reporting its id, or — when the registry reports no observation
(zero total matches or no entries) — answers
"No observations found for patient {id}." without inserting any row. -/
def importSingleObservation (reg : Registry) (patient_id : Nat) (s : Store) :
    Store × Except PyExn (String × Option Nat) :=
  match storeGetPatient s patient_id with
  | none =>
    (s, .ok ("Patient with ID " ++ toString patient_id ++ " not found.", none))
  | some patient =>
    match reg.obsResponse (subjectKey patient) with
    | .error f => (s, .error (.registry f))
    | .ok data =>
      match data.entry.getD [] with
      | e :: _ =>
        if (data.total.getD 0) > 0 then
          let res := e.resource.getD ⟨none, none⟩
          (insertObservation s (some patient.id)
              (res.resourceType.getD "unknown") (res.status.getD "unknown"),
            .ok ("Observation stored for patient " ++ toString patient_id ++ ".",
              some s.nextObservationId))
        else
          (s, .ok ("No observations found for patient " ++
              toString patient_id ++ ".", none))
      | [] =>
        (s, .ok ("No observations found for patient " ++
            toString patient_id ++ ".", none))

/-- The referential-integrity invariant: every observation whose patient
reference is non-null resolves to an existing patient row. -/
def storeInvB (s : Store) : Bool :=
  s.observations.all (fun o =>
    o.patient_id.all (fun pid => s.patients.any (fun p => p.id == pid)))

/-- The rows the patient loop creates from a run of all-new entries whose
NOT NULL fields are all present, surrogate keys assigned consecutively from
`base` (the `getD ""` defaults are never reached under that hypothesis). -/
def expectedRows (base : Nat) : List PatientEntry → List PatientRow
  | [] => []
  | e :: rest =>
    ⟨base, ((entryResource e).id).getD "",
      pyStrip (pyFirstNameOf (entryResource e)),
      ((entryResource e).gender).getD "",
      ((entryResource e).birthDate).getD ""⟩ ::
      expectedRows (base + 1) rest

/-- The first-name extraction as the specification words it: the
whitespace-trimmed first element of the first name's given list, and the
empty string when the name list or the given list is absent or empty. -/
def specFirstName (res : PatientResource) : String :=
  match res.name with
  | some (n :: _) =>
    match n.given with
    | some (g :: _) => pyStrip g
    | _ => ""
  | _ => ""

/-! Concrete fixtures used by witnesses and counterexamples.  The John/Jane
resources and the observation bundles replicate the inputs of the repository
test suite (`app/test_main.py`). -/

def fxJohnResource : PatientResource :=
  ⟨some "1419", some [⟨some ["  John  "]⟩], some "male", some "1990-01-01"⟩

def fxJaneResource : PatientResource :=
  ⟨some "1420", some [⟨some ["Jane"]⟩], some "female", some "1985-05-10"⟩

/-- A resource whose `name` key is present but holds an empty list. -/
def fxEmptyNameResource : PatientResource := ⟨some "e1", some [], none, none⟩

def fxObsFinal : ObsBundle :=
  ⟨some 1, some [⟨some ⟨some "Observation", some "final"⟩⟩]⟩

def fxObsEmpty : ObsBundle := ⟨some 0, none⟩

/-- An observation bundle that carries entries but no `total` field. -/
def fxObsEntriesNoTotal : ObsBundle :=
  ⟨none, some [⟨some ⟨some "Observation", some "final"⟩⟩]⟩

def fxRegTwoNew : Registry :=
  ⟨fun _ => .ok ⟨some [⟨some fxJohnResource⟩, ⟨some fxJaneResource⟩]⟩,
   fun _ => .ok fxObsFinal⟩

def fxRegEmptyNameEntry : Registry :=
  ⟨fun _ => .ok ⟨some [⟨some fxEmptyNameResource⟩]⟩, fun _ => .ok fxObsEmpty⟩

def fxRegObsNetworkDown : Registry :=
  ⟨fun _ => .ok ⟨some [⟨some fxJohnResource⟩]⟩, fun _ => .error .network⟩

def fxRegPatientsDown : Registry :=
  ⟨fun _ => .error (.httpStatus 500), fun _ => .ok fxObsEmpty⟩

def fxRegObsNoTotal : Registry :=
  ⟨fun _ => .ok ⟨none⟩, fun _ => .ok fxObsEntriesNoTotal⟩

def fxRegObsFinal : Registry :=
  ⟨fun _ => .ok ⟨none⟩, fun _ => .ok fxObsFinal⟩

def fxRegObsEmpty : Registry :=
  ⟨fun _ => .ok ⟨none⟩, fun _ => .ok fxObsEmpty⟩

def fxRegNoGender : Registry :=
  ⟨fun _ => .ok ⟨some [⟨some ⟨some "g1", some [⟨some ["Ann"]⟩], none, none⟩⟩]⟩,
   fun _ => .ok fxObsEmpty⟩

/-- One stored patient with surrogate key 1. -/
def fxStoreJohn : Store :=
  ⟨[⟨1, "p1", "John", "male", "1990-01-01"⟩], [], 2, 1⟩

/-- One stored patient whose external id is "X". -/
def fxStoreX : Store :=
  ⟨[⟨1, "X", "John", "male", "1990-01-01"⟩], [], 2, 1⟩

/-- A token verifier that rejects every token, as `verify_token` does for an
invalid or expired signature. -/
def fxVerifyReject : String → Except String Claims :=
  fun _ => .error "Invalid token"

/-!  Helper lemmas shared between the claim theorems. -/

theorem extractFirstNameRaw_ok (res : PatientResource) (h : res.name ≠ some []) :
    extractFirstNameRaw res = .ok (pyFirstNameOf res) := by
  cases hn : res.name with
  | none => simp [extractFirstNameRaw, pyFirstNameOf, hn]
  | some l =>
    cases l with
    | nil => exact absurd hn h
    | cons n rest =>
      simp only [extractFirstNameRaw, pyFirstNameOf, hn]
      cases hg : n.given.getD [] <;> simp

theorem expectedRows_length (base : Nat) (entries : List PatientEntry) :
    (expectedRows base entries).length = entries.length := by
  induction entries generalizing base with
  | nil => rfl
  | cons e rest ih => simp [expectedRows, ih]

/-- A commit either succeeds — all NOT NULL values present, row appended —
or raises `IntegrityError`. -/
theorem insertPatient_cases (s : Store) (pid : Option String) (fn : String)
    (g bd : Option String) :
    (∃ pv gv bv, pid = some pv ∧ g = some gv ∧ bd = some bv ∧
      insertPatient s pid fn g bd =
        .ok (⟨s.patients ++ [⟨s.nextPatientId, pv, fn, gv, bv⟩],
          s.observations, s.nextPatientId + 1, s.nextObservationId⟩,
          s.nextPatientId)) ∨
    insertPatient s pid fn g bd = .error .integrityError := by
  cases pid with
  | none => exact Or.inr rfl
  | some pv =>
    cases g with
    | none => exact Or.inr rfl
    | some gv =>
      cases bd with
      | none => exact Or.inr rfl
      | some bv => exact Or.inl ⟨pv, gv, bv, rfl, rfl, rfl, rfl⟩

/-- Whether a commit raises `IntegrityError` depends only on the candidate
values, not on the store. -/
theorem insertPatient_error_any (s t : Store) (pid : Option String)
    (fn : String) (g bd : Option String)
    (h : insertPatient s pid fn g bd = .error .integrityError) :
    insertPatient t pid fn g bd = .error .integrityError := by
  cases pid <;> cases g <;> cases bd <;> simp_all [insertPatient]

/-- When every entry is new to the store (no external-id collision with a
stored row), no entry carries a present-but-empty name list, and every entry
carries the external id, gender and birth date its NOT NULL columns demand,
the patient loop commits one row per entry, with consecutive surrogate keys,
and records exactly those keys. -/
theorem storePatientsLoop_all_new (entries : List PatientEntry) (s : Store)
    (saved : List Nat)
    (hname : ∀ e ∈ entries, (entryResource e).name ≠ some [])
    (hreq : ∀ e ∈ entries, ((entryResource e).id).isSome = true ∧
        ((entryResource e).gender).isSome = true ∧
        ((entryResource e).birthDate).isSome = true)
    (hnew : ∀ e ∈ entries, ∀ p ∈ s.patients,
        some p.patient_id ≠ (entryResource e).id)
    (hnodup : (entries.map (fun e => (entryResource e).id)).Nodup) :
    storePatientsLoop s entries saved =
      (⟨s.patients ++ expectedRows s.nextPatientId entries, s.observations,
          s.nextPatientId + entries.length, s.nextObservationId⟩,
        .ok (saved ++ (expectedRows s.nextPatientId entries).map (fun r => r.id))) := by
  induction entries generalizing s saved with
  | nil => simp [storePatientsLoop, expectedRows]
  | cons e rest ih =>
    have hex : extractFirstNameRaw (entryResource e) =
        .ok (pyFirstNameOf (entryResource e)) :=
      extractFirstNameRaw_ok _ (hname e (by simp))
    obtain ⟨hid1, hg1, hb1⟩ := hreq e (by simp)
    obtain ⟨pid0, hid⟩ := Option.isSome_iff_exists.mp hid1
    obtain ⟨g0, hg⟩ := Option.isSome_iff_exists.mp hg1
    obtain ⟨bd0, hb⟩ := Option.isSome_iff_exists.mp hb1
    have hfind : s.patients.find?
        (fun p => some p.patient_id == (entryResource e).id) = none := by
      rw [List.find?_eq_none]
      intro p hp
      simpa using hnew e (by simp) p hp
    have hins : insertPatient s (entryResource e).id
        (pyStrip (pyFirstNameOf (entryResource e))) (entryResource e).gender
        (entryResource e).birthDate =
        .ok (⟨s.patients ++ [⟨s.nextPatientId, pid0,
            pyStrip (pyFirstNameOf (entryResource e)), g0, bd0⟩],
          s.observations, s.nextPatientId + 1, s.nextObservationId⟩,
          s.nextPatientId) := by
      rw [hid, hg, hb]
      rfl
    have hmemrest : (entryResource e).id ∉ rest.map (fun x => (entryResource x).id) :=
      (List.nodup_cons.mp hnodup).1
    have ihyp :=
      ih (⟨s.patients ++ [⟨s.nextPatientId, pid0,
            pyStrip (pyFirstNameOf (entryResource e)), g0, bd0⟩],
          s.observations, s.nextPatientId + 1, s.nextObservationId⟩)
        (saved ++ [s.nextPatientId])
        (fun x hx => hname x (by simp [hx]))
        (fun x hx => hreq x (by simp [hx]))
        (by
          intro x hx p hp
          rcases List.mem_append.mp hp with hps | hrow
          · exact hnew x (by simp [hx]) p hps
          · have hpr : p.patient_id = pid0 := by
              simp only [List.mem_singleton] at hrow
              rw [hrow]
            rw [hpr, ← hid]
            intro hcontra
            exact hmemrest (hcontra ▸ List.mem_map_of_mem (fun x => (entryResource x).id) hx))
        (List.nodup_cons.mp hnodup).2
    simp only [storePatientsLoop, hex, hfind, hins]
    rw [ihyp]
    simp [expectedRows, List.append_assoc, hid, hg, hb]
    omega

/-- When every requested surrogate key resolves to a stored patient and every
observation query answers with a response on which the first-entry extraction
does not raise, the observation loop appends exactly one row per key, linked
to that key. -/
theorem storeObservationsLoop_ok (reg : Registry) (ids : List Nat) (s : Store)
    (hobs : ∀ key, ∃ data rt st, reg.obsResponse key = .ok data ∧
        firstObservationFields data = .ok (rt, st))
    (hids : ∀ pid ∈ ids, ∃ p ∈ s.patients, p.id = pid) :
    ∃ rows : List ObservationRow,
      storeObservationsLoop reg s ids =
        (⟨s.patients, s.observations ++ rows, s.nextPatientId,
            s.nextObservationId + ids.length⟩, .ok ()) ∧
      rows.map (fun o => o.patient_id) = ids.map some := by
  induction ids generalizing s with
  | nil => exact ⟨[], by simp [storeObservationsLoop], rfl⟩
  | cons pid rest ih =>
    obtain ⟨p0, hp0mem, hp0id⟩ := hids pid (by simp)
    have hfindsome : (s.patients.find? (fun p => p.id == pid)).isSome := by
      rw [List.find?_isSome]
      exact ⟨p0, hp0mem, by simp [hp0id]⟩
    obtain ⟨found, hfound⟩ := Option.isSome_iff_exists.mp hfindsome
    have hfoundid : found.id = pid := by
      simpa using List.find?_some hfound
    obtain ⟨data, rt, st, hresp, hfields⟩ := hobs (subjectKey found)
    have hstep : fetch_and_store_first_observation reg pid s =
        (insertObservation s (some found.id) rt st, .ok none) := by
      simp only [fetch_and_store_first_observation, storeGetPatient, hfound,
        hresp, hfields]
    obtain ⟨rows, hrows, hmap⟩ :=
      ih (insertObservation s (some found.id) rt st)
        (by
          intro q hq
          obtain ⟨p, hpmem, hpid⟩ := hids q (by simp [hq])
          exact ⟨p, hpmem, hpid⟩)
    refine ⟨⟨s.nextObservationId, some pid, rt, st⟩ :: rows, ?_, ?_⟩
    · simp only [storeObservationsLoop, hstep]
      rw [hrows]
      simp only [insertObservation, hfoundid]
      simp [List.append_assoc]
      omega
    · simp [hmap]

/-- C1 (amended): a patient import whose registry response holds `N` entries
with pairwise-distinct external ids, none already stored, no
present-but-empty name list, each entry carrying the id, gender and birth
date its NOT NULL columns demand (else the commit raises IntegrityError),
and whose observation queries all answer without raising, stores exactly
`N` patient rows and `N` observation rows, each observation linked to one
of the new surrogate keys, and reports `total_saved = N` with
`saved_patient_ids` exactly the new keys. -/
theorem import_all_new_stores_N (reg : Registry) (pc : String) (s : Store)
    (bundle : PatientBundle) (entries : List PatientEntry)
    (hresp : reg.patientResponse pc = .ok bundle)
    (hentries : bundle.entry = some entries)
    (hreq : ∀ e ∈ entries, ((entryResource e).id).isSome = true ∧
        ((entryResource e).gender).isSome = true ∧
        ((entryResource e).birthDate).isSome = true)
    (hnodup : (entries.map (fun e => (entryResource e).id)).Nodup)
    (hnew : ∀ e ∈ entries, ∀ p ∈ s.patients,
        some p.patient_id ≠ (entryResource e).id)
    (hname : ∀ e ∈ entries, (entryResource e).name ≠ some [])
    (hobs : ∀ key, ∃ data rt st, reg.obsResponse key = .ok data ∧
        firstObservationFields data = .ok (rt, st)) :
    ∃ (r : ImportResult) (rows : List PatientRow) (obsRows : List ObservationRow),
      fetch_and_store_patients_by_postal_code reg pc s =
        (⟨s.patients ++ rows, s.observations ++ obsRows,
            s.nextPatientId + entries.length,
            s.nextObservationId + entries.length⟩, .ok r) ∧
      rows.length = entries.length ∧
      obsRows.length = entries.length ∧
      r.total_saved = entries.length ∧
      r.saved_patient_ids = rows.map (fun p => p.id) ∧
      obsRows.map (fun o => o.patient_id) = rows.map (fun p => some p.id) := by
  have hloop := storePatientsLoop_all_new entries s [] hname hreq hnew hnodup
  have hrowlen := expectedRows_length s.nextPatientId entries
  obtain ⟨obsRows, hrun, hmap⟩ :=
    storeObservationsLoop_ok reg
      ((expectedRows s.nextPatientId entries).map (fun r => r.id))
      ⟨s.patients ++ expectedRows s.nextPatientId entries, s.observations,
        s.nextPatientId + entries.length, s.nextObservationId⟩ hobs
      (by
        intro pid hpid
        obtain ⟨rr, hrr, hid⟩ := List.mem_map.mp hpid
        exact ⟨rr, by simp [hrr], hid⟩)
  have hidslen :
      ((expectedRows s.nextPatientId entries).map (fun r => r.id)).length =
        entries.length := by
    simp [hrowlen]
  have hobslen : obsRows.length = entries.length := by
    have := congrArg List.length hmap
    simpa [hrowlen] using this
  refine ⟨⟨"Patients from postal code " ++ pc ++ " processed successfully.",
      ((expectedRows s.nextPatientId entries).map (fun r => r.id)).length,
      (expectedRows s.nextPatientId entries).map (fun r => r.id)⟩,
    expectedRows s.nextPatientId entries, obsRows, ?_, hrowlen, hobslen,
    hidslen, rfl, ?_⟩
  · simp only [fetch_and_store_patients_by_postal_code, hresp, hentries,
      Option.getD_some]
    rw [hloop]
    simp only [List.nil_append]
    rw [hrun]
    simp [hidslen]
  · rw [hmap]
    simp [List.map_map]

theorem fetch_first_obs_patients_eq (reg : Registry) (pid : Nat) (s : Store) :
    (fetch_and_store_first_observation reg pid s).1.patients = s.patients := by
  unfold fetch_and_store_first_observation
  split
  · rfl
  · split
    · rfl
    · split
      · rfl
      · simp [insertObservation]

theorem storeObservationsLoop_patients_eq (reg : Registry) (ids : List Nat)
    (s : Store) :
    (storeObservationsLoop reg s ids).1.patients = s.patients := by
  induction ids generalizing s with
  | nil => rfl
  | cons pid rest ih =>
    have hp := fetch_first_obs_patients_eq reg pid s
    unfold storeObservationsLoop
    cases hstep : fetch_and_store_first_observation reg pid s with
    | mk s1 res =>
      rw [hstep] at hp
      cases res with
      | error e => simpa using hp
      | ok v => simp only []; rw [ih s1]; exact hp

theorem storePatientsLoop_patients_extend (entries : List PatientEntry)
    (s : Store) (saved : List Nat) :
    ∃ ext, (storePatientsLoop s entries saved).1.patients = s.patients ++ ext := by
  induction entries generalizing s saved with
  | nil => exact ⟨[], by simp [storePatientsLoop]⟩
  | cons e rest ih =>
    cases hx : extractFirstNameRaw (entryResource e) with
    | error err =>
      refine ⟨[], ?_⟩
      simp [storePatientsLoop, hx]
    | ok fn =>
      cases hf : s.patients.find?
          (fun p => some p.patient_id == (entryResource e).id) with
      | some m =>
        obtain ⟨ext, hext⟩ := ih s saved
        refine ⟨ext, ?_⟩
        simp only [storePatientsLoop, hx, hf]
        exact hext
      | none =>
        rcases insertPatient_cases s (entryResource e).id (pyStrip fn)
            (entryResource e).gender (entryResource e).birthDate with
          ⟨pv, gv, bv, hpv, hgv, hbv, hins⟩ | hins
        · obtain ⟨ext, hext⟩ :=
            ih ⟨s.patients ++ [⟨s.nextPatientId, pv, pyStrip fn, gv, bv⟩],
                s.observations, s.nextPatientId + 1, s.nextObservationId⟩
              (saved ++ [s.nextPatientId])
          refine ⟨⟨s.nextPatientId, pv, pyStrip fn, gv, bv⟩ :: ext, ?_⟩
          simp only [storePatientsLoop, hx, hf, hins]
          rw [hext]
          simp
        · refine ⟨[], ?_⟩
          simp [storePatientsLoop, hx, hf, hins]

theorem storePatientsLoop_observations_eq (entries : List PatientEntry)
    (s : Store) (saved : List Nat) :
    (storePatientsLoop s entries saved).1.observations = s.observations := by
  induction entries generalizing s saved with
  | nil => rfl
  | cons e rest ih =>
    cases hx : extractFirstNameRaw (entryResource e) with
    | error err => simp [storePatientsLoop, hx]
    | ok fn =>
      cases hf : s.patients.find?
          (fun p => some p.patient_id == (entryResource e).id) with
      | some m =>
        simp only [storePatientsLoop, hx, hf]
        exact ih s saved
      | none =>
        rcases insertPatient_cases s (entryResource e).id (pyStrip fn)
            (entryResource e).gender (entryResource e).birthDate with
          ⟨pv, gv, bv, hpv, hgv, hbv, hins⟩ | hins
        · simp only [storePatientsLoop, hx, hf, hins]
          exact ih _ _
        · simp [storePatientsLoop, hx, hf, hins]

/-- Re-running the patient loop over the same entries, starting from any
store whose patient table equals the table the first run left behind,
changes nothing: every entry either de-duplicates against a row the first
run saw or created, or raises exactly where the first run raised. -/
theorem storePatientsLoop_rerun (entries : List PatientEntry) (s t : Store)
    (saved saved2 : List Nat)
    (ht : t.patients = (storePatientsLoop s entries saved).1.patients) :
    storePatientsLoop t entries saved2 =
      (t, match (storePatientsLoop s entries saved).2 with
          | .ok _ => .ok saved2
          | .error e => .error e) := by
  induction entries generalizing s t saved saved2 with
  | nil => simp [storePatientsLoop]
  | cons e rest ih =>
    cases hx : extractFirstNameRaw (entryResource e) with
    | error err => simp [storePatientsLoop, hx]
    | ok fn =>
      cases hf : s.patients.find?
          (fun p => some p.patient_id == (entryResource e).id) with
      | some m =>
        have hrun1 : storePatientsLoop s (e :: rest) saved =
            storePatientsLoop s rest saved := by
          simp only [storePatientsLoop, hx, hf]
        rw [hrun1] at ht ⊢
        have hpred : (some m.patient_id == (entryResource e).id) = true := by
          have := List.find?_some hf
          simpa using this
        have hm := List.mem_of_find?_eq_some hf
        obtain ⟨ext, hext⟩ := storePatientsLoop_patients_extend rest s saved
        have hft : (t.patients.find?
            (fun p => some p.patient_id == (entryResource e).id)).isSome := by
          rw [List.find?_isSome]
          exact ⟨m, by rw [ht, hext]; exact List.mem_append_left ext hm, hpred⟩
        obtain ⟨m2, hm2⟩ := Option.isSome_iff_exists.mp hft
        simp only [storePatientsLoop, hx, hm2]
        exact ih s t saved saved2 ht
      | none =>
        rcases insertPatient_cases s (entryResource e).id (pyStrip fn)
            (entryResource e).gender (entryResource e).birthDate with
          ⟨pv, gv, bv, hpv, hgv, hbv, hins⟩ | hins
        · have hrun1 : storePatientsLoop s (e :: rest) saved =
              storePatientsLoop
                ⟨s.patients ++ [⟨s.nextPatientId, pv, pyStrip fn, gv, bv⟩],
                  s.observations, s.nextPatientId + 1, s.nextObservationId⟩
                rest (saved ++ [s.nextPatientId]) := by
            simp only [storePatientsLoop, hx, hf, hins]
          rw [hrun1] at ht ⊢
          obtain ⟨ext, hext⟩ :=
            storePatientsLoop_patients_extend rest
              ⟨s.patients ++ [⟨s.nextPatientId, pv, pyStrip fn, gv, bv⟩],
                s.observations, s.nextPatientId + 1, s.nextObservationId⟩
              (saved ++ [s.nextPatientId])
          have hft : (t.patients.find?
              (fun p => some p.patient_id == (entryResource e).id)).isSome := by
            rw [List.find?_isSome]
            refine ⟨⟨s.nextPatientId, pv, pyStrip fn, gv, bv⟩, ?_,
              by simp [hpv]⟩
            rw [ht, hext]
            exact List.mem_append_left ext (by simp)
          obtain ⟨m2, hm2⟩ := Option.isSome_iff_exists.mp hft
          simp only [storePatientsLoop, hx, hm2]
          exact ih _ t _ saved2 ht
        · have hrun1 : storePatientsLoop s (e :: rest) saved =
              (s, .error .integrityError) := by
            simp only [storePatientsLoop, hx, hf, hins]
          rw [hrun1] at ht ⊢
          have htp : t.patients = s.patients := ht
          have hinst := insertPatient_error_any s t (entryResource e).id
            (pyStrip fn) (entryResource e).gender (entryResource e).birthDate
            hins
          simp only [storePatientsLoop, hx, htp, hf, hinst]

/-- C2: re-running the patient import for the same postal code against the
same registry behaviour leaves the store exactly as the first run left it —
every external id the first run saw is de-duplicated, no new patient is
saved, and therefore no observation import runs.  This holds whether the
first run succeeded or raised mid-way. -/
theorem reimport_second_run_is_noop (reg : Registry) (pc : String) (s : Store) :
    (fetch_and_store_patients_by_postal_code reg pc
        (fetch_and_store_patients_by_postal_code reg pc s).1).1 =
      (fetch_and_store_patients_by_postal_code reg pc s).1 := by
  cases hp : reg.patientResponse pc with
  | error f => simp [fetch_and_store_patients_by_postal_code, hp]
  | ok bundle =>
    cases h1 : storePatientsLoop s (bundle.entry.getD []) [] with
    | mk s1a res1 =>
      cases res1 with
      | error e =>
        have hrun1 : fetch_and_store_patients_by_postal_code reg pc s =
            (s1a, .error e) := by
          simp only [fetch_and_store_patients_by_postal_code, hp, h1]
        rw [hrun1]
        have hrr := storePatientsLoop_rerun (bundle.entry.getD []) s s1a [] []
          (by rw [h1])
        rw [h1] at hrr
        simp only [fetch_and_store_patients_by_postal_code, hp, hrr]
      | ok saved =>
        cases h2 : storeObservationsLoop reg s1a saved with
        | mk s2a res2 =>
          have hpat : s2a.patients = s1a.patients := by
            have := storeObservationsLoop_patients_eq reg saved s1a
            rw [h2] at this
            exact this
          have hrr := storePatientsLoop_rerun (bundle.entry.getD []) s s2a [] []
            (by rw [hpat, h1])
          rw [h1] at hrr
          cases res2 with
          | error e =>
            have hrun1 : fetch_and_store_patients_by_postal_code reg pc s =
                (s2a, .error e) := by
              simp only [fetch_and_store_patients_by_postal_code, hp, h1, h2]
            rw [hrun1]
            simp only [fetch_and_store_patients_by_postal_code, hp, hrr,
              storeObservationsLoop]
          | ok u =>
            have hrun1 : fetch_and_store_patients_by_postal_code reg pc s =
                (s2a, .ok ⟨"Patients from postal code " ++ pc ++
                    " processed successfully.", saved.length, saved⟩) := by
              simp only [fetch_and_store_patients_by_postal_code, hp, h1, h2]
            rw [hrun1]
            simp only [fetch_and_store_patients_by_postal_code, hp, hrr,
              storeObservationsLoop]

/-- C1 (counterexample): a registry response with one entry — external id
"e1", not stored yet, distinct trivially — whose `name` key holds an empty
list makes the import raise `IndexError` at
`resource.get("name", [{}])[0]`: zero patient rows are created instead of
the one the claim promises. -/
theorem import_empty_name_list_counterexample :
    fxRegEmptyNameEntry.patientResponse "02718" =
      .ok ⟨some [⟨some fxEmptyNameResource⟩]⟩ ∧
    fxEmptyNameResource.id = some "e1" ∧
    emptyStore.patients = [] ∧
    (fetch_and_store_patients_by_postal_code fxRegEmptyNameEntry "02718"
        emptyStore).1.patients.length = 0 ∧
    (fetch_and_store_patients_by_postal_code fxRegEmptyNameEntry "02718"
        emptyStore).2 = .error .indexError :=
  ⟨rfl, rfl, rfl, rfl, rfl⟩

theorem import_all_new_stores_N_witness :
    ∃ (r : ImportResult) (rows : List PatientRow) (obsRows : List ObservationRow),
      fetch_and_store_patients_by_postal_code fxRegTwoNew "02718" emptyStore =
        (⟨emptyStore.patients ++ rows, emptyStore.observations ++ obsRows,
            emptyStore.nextPatientId + 2, emptyStore.nextObservationId + 2⟩,
          .ok r) ∧
      rows.length = 2 ∧
      obsRows.length = 2 ∧
      r.total_saved = 2 ∧
      r.saved_patient_ids = rows.map (fun p => p.id) ∧
      obsRows.map (fun o => o.patient_id) = rows.map (fun p => some p.id) :=
  import_all_new_stores_N fxRegTwoNew "02718" emptyStore
    ⟨some [⟨some fxJohnResource⟩, ⟨some fxJaneResource⟩]⟩
    [⟨some fxJohnResource⟩, ⟨some fxJaneResource⟩]
    rfl rfl (by decide) (by decide) (by decide) (by decide)
    (fun _ => ⟨fxObsFinal, "Observation", "final", rfl, rfl⟩)

/-- C3 (counterexample): an observation response that carries a first entry
with `resourceType = "Observation"`, `status = "final"` but no `total` field
is stored as the `("unknown", "empty")` sentinel, not as the first entry's
values, because the code requires `total > 0` as well. -/
theorem obs_entries_without_total_counterexample :
    fxObsEntriesNoTotal.entry =
      some [⟨some ⟨some "Observation", some "final"⟩⟩] ∧
    (fetch_and_store_first_observation fxRegObsNoTotal 1 fxStoreJohn).1.observations =
      [⟨1, some 1, "unknown", "empty"⟩] ∧
    (⟨1, some 1, "unknown", "empty"⟩ : ObservationRow) ≠
      ⟨1, some 1, "Observation", "final"⟩ :=
  ⟨rfl, rfl, by decide⟩

/-- C3 (amended): for an existing patient, an observation response reporting
`total ≤ 0` (or no total) or lacking the `entry` field stores exactly one
sentinel row; a response reporting a positive total with at least one entry
stores exactly one row taking `resourceType`/`status` from the first entry
only (defaulting to `"unknown"`), every later entry being discarded. -/
theorem obs_import_uses_first_entry_only (reg : Registry) (pid : Nat) (s : Store)
    (patient : PatientRow) (data : ObsBundle)
    (hp : storeGetPatient s pid = some patient)
    (hr : reg.obsResponse (subjectKey patient) = .ok data) :
    (¬((data.total.getD 0) > 0 ∧ data.entry.isSome = true) →
      fetch_and_store_first_observation reg pid s =
        (insertObservation s (some patient.id) "unknown" "empty", .ok none)) ∧
    (∀ e rest, (data.total.getD 0) > 0 → data.entry = some (e :: rest) →
      fetch_and_store_first_observation reg pid s =
        (insertObservation s (some patient.id)
            ((e.resource.getD ⟨none, none⟩).resourceType.getD "unknown")
            ((e.resource.getD ⟨none, none⟩).status.getD "unknown"), .ok none)) ∧
    (∀ opid rt st, (insertObservation s opid rt st).observations =
      s.observations ++ [⟨s.nextObservationId, opid, rt, st⟩]) := by
  refine ⟨?_, ?_, fun _ _ _ => rfl⟩
  · intro hcond
    have hfields : firstObservationFields data = .ok ("unknown", "empty") := by
      unfold firstObservationFields
      rw [if_neg hcond]
    simp only [fetch_and_store_first_observation, hp, hr, hfields]
  · intro e rest htot hent
    have hfields : firstObservationFields data =
        .ok ((e.resource.getD ⟨none, none⟩).resourceType.getD "unknown",
          (e.resource.getD ⟨none, none⟩).status.getD "unknown") := by
      unfold firstObservationFields
      rw [if_pos ⟨htot, by rw [hent]; rfl⟩, hent]
      rfl
    simp only [fetch_and_store_first_observation, hp, hr, hfields]

theorem obs_import_uses_first_entry_only_witness :
    fetch_and_store_first_observation fxRegObsFinal 1 fxStoreJohn =
      (insertObservation fxStoreJohn (some 1) "Observation" "final", .ok none) ∧
    (insertObservation fxStoreJohn (some 1) "Observation" "final").observations =
      [⟨1, some 1, "Observation", "final"⟩] := by
  refine ⟨?_, by decide⟩
  exact (obs_import_uses_first_entry_only fxRegObsFinal 1 fxStoreJohn
      ⟨1, "p1", "John", "male", "1990-01-01"⟩ fxObsFinal rfl rfl).2.1
    ⟨some ⟨some "Observation", some "final"⟩⟩ [] (by decide) rfl

/-- C4 (spec-modelled): when the registry reports no observation for an
existing patient, the standalone single-observation import answers
"No observations found for patient {id}." and inserts nothing, while the
cascading helper used by the patient import inserts the
`("unknown", "empty")` sentinel for the same state — the asymmetry the spec
calls intentional. -/
theorem standalone_obs_import_no_placeholder (reg : Registry) (pid : Nat)
    (s : Store) (patient : PatientRow) (data : ObsBundle)
    (hp : storeGetPatient s pid = some patient)
    (hr : reg.obsResponse (subjectKey patient) = .ok data)
    (hempty : data.total.getD 0 ≤ 0) :
    importSingleObservation reg pid s =
      (s, .ok ("No observations found for patient " ++ toString pid ++ ".",
        none)) ∧
    fetch_and_store_first_observation reg pid s =
      (insertObservation s (some patient.id) "unknown" "empty", .ok none) := by
  constructor
  · simp only [importSingleObservation, hp, hr]
    cases hd : data.entry.getD [] with
    | nil => rfl
    | cons e rest =>
      have hnot : ¬ (data.total.getD 0 > 0) := by omega
      simp [hnot]
  · have hfields : firstObservationFields data = .ok ("unknown", "empty") := by
      unfold firstObservationFields
      rw [if_neg]
      rintro ⟨h1, _⟩
      omega
    simp only [fetch_and_store_first_observation, hp, hr, hfields]

theorem standalone_obs_import_no_placeholder_witness :
    importSingleObservation fxRegObsEmpty 1 fxStoreJohn =
      (fxStoreJohn, .ok ("No observations found for patient " ++
        toString (1 : Nat) ++ ".", none)) ∧
    ("No observations found for patient " ++ toString (1 : Nat) ++ "." =
      "No observations found for patient 1.") ∧
    (fetch_and_store_first_observation fxRegObsEmpty 1 fxStoreJohn).1.observations =
      [⟨1, some 1, "unknown", "empty"⟩] := by
  have h := standalone_obs_import_no_placeholder fxRegObsEmpty 1 fxStoreJohn
    ⟨1, "p1", "John", "male", "1990-01-01"⟩ fxObsEmpty rfl rfl (by decide)
  exact ⟨h.1, by decide, by rw [h.2]; decide⟩

/-- C5 (counterexample): when the patient query succeeds but the follow-up
observation query fails with a network error, the import call fails — yet
the patient row committed before the failure stays in the store, so "nothing
is persisted by that call" is false for this registry-call failure. -/
theorem import_obs_call_failure_persists_patient :
    (fetch_and_store_patients_by_postal_code fxRegObsNetworkDown "02718"
        emptyStore).2 = .error (.registry .network) ∧
    (fetch_and_store_patients_by_postal_code fxRegObsNetworkDown "02718"
        emptyStore).1.patients.length = 1 :=
  ⟨rfl, rfl⟩

/-- C5 (amended): when the initial patient-registry fetch itself fails —
network error, non-2xx status, or malformed body — the import fails before
any write, and the store is returned unchanged. -/
theorem import_patient_fetch_failure_persists_nothing (reg : Registry)
    (pc : String) (s : Store) (f : RegistryFailure)
    (h : reg.patientResponse pc = .error f) :
    fetch_and_store_patients_by_postal_code reg pc s =
      (s, .error (.registry f)) := by
  simp [fetch_and_store_patients_by_postal_code, h]

theorem import_patient_fetch_failure_persists_nothing_witness :
    fetch_and_store_patients_by_postal_code fxRegPatientsDown "02718"
        emptyStore = (emptyStore, .error (.registry (.httpStatus 500))) :=
  import_patient_fetch_failure_persists_nothing fxRegPatientsDown "02718"
    emptyStore (.httpStatus 500) rfl

/-- C6 (counterexample): with both query parameters supplied —
`patient_id` as the empty string, `first_name` as "John" — the stored row
`(patient_id = "X", first_name = "John")` satisfies neither a conjunctive
match (its patient_id differs from the supplied "") nor the claim's 404
outcome: the code silently drops the falsy empty-string filter and answers
200 with that row. -/
theorem search_empty_string_filter_counterexample :
    search_patients (some "") (some "John") fxStoreX =
      .ok [⟨1, "X", "John", "male", "1990-01-01"⟩] ∧
    (∀ p ∈ fxStoreX.patients,
      ¬(p.patient_id = "" ∧ p.first_name = "John")) :=
  ⟨rfl, by decide⟩

/-- C6 (amended): reading "supplied" as "present with a non-empty value"
(a filter passed as the empty string is falsy in Python and is ignored),
the search answers 404 exactly when no stored row satisfies every non-empty
filter by exact string equality — conjunctively when both are non-empty —
and otherwise 200 with precisely the matching rows. -/
theorem search_patients_conjunctive (patient_id first_name : Option String)
    (s : Store) (h : pyTruthy patient_id = true ∨ pyTruthy first_name = true) :
    (s.patients.filter (fun p =>
        (!pyTruthy patient_id || p.patient_id == patient_id.getD "") &&
        (!pyTruthy first_name || p.first_name == first_name.getD "")) = [] →
      search_patients patient_id first_name s =
        .notFound "No matching patients found.") ∧
    (s.patients.filter (fun p =>
        (!pyTruthy patient_id || p.patient_id == patient_id.getD "") &&
        (!pyTruthy first_name || p.first_name == first_name.getD "")) ≠ [] →
      search_patients patient_id first_name s =
        .ok (s.patients.filter (fun p =>
          (!pyTruthy patient_id || p.patient_id == patient_id.getD "") &&
          (!pyTruthy first_name || p.first_name == first_name.getD "")))) := by
  have hsel : search_patients patient_id first_name s =
      (if (s.patients.filter (fun p =>
            (!pyTruthy patient_id || p.patient_id == patient_id.getD "") &&
            (!pyTruthy first_name || p.first_name == first_name.getD ""))).isEmpty
        then SearchResp.notFound "No matching patients found."
        else .ok (s.patients.filter (fun p =>
          (!pyTruthy patient_id || p.patient_id == patient_id.getD "") &&
          (!pyTruthy first_name || p.first_name == first_name.getD "")))) := by
    cases hpid : pyTruthy patient_id <;> cases hfn : pyTruthy first_name <;>
      simp_all [search_patients]
  constructor
  · intro hfil
    rw [hsel, hfil]
    rfl
  · intro hfil
    rw [hsel, if_neg]
    simpa [List.isEmpty_iff] using hfil

theorem search_patients_conjunctive_witness :
    search_patients (some "X") none fxStoreX =
      .ok [⟨1, "X", "John", "male", "1990-01-01"⟩] := by
  have h := (search_patients_conjunctive (some "X") none fxStoreX
    (Or.inl rfl)).2 (by decide)
  rw [h]
  decide

/-- C7: a request whose bearer token is missing, or whose token fails
verification, is rejected by the access gate with a 401 carrying a
`WWW-Authenticate: Bearer` challenge — before the handler body runs, so the
store is returned unchanged and the response does not depend on it. -/
theorem unauthorized_requests_rejected_before_store
    (verify_token : String → Except String Claims) (token : Option String)
    (reg : Registry) (pc : String) (patient_id first_name : Option String)
    (h : token = none ∨ ∃ t e, token = some t ∧ verify_token t = .error e) :
    ∃ r : AuthFailureResp, r.status = 401 ∧ r.wwwAuthenticate = some "Bearer" ∧
      (∀ s : Store, guardedSearchPatients verify_token token patient_id
        first_name s = (.unauthorized r, s)) ∧
      (∀ s : Store, guardedImportPatients verify_token token reg pc s =
        (.unauthorized r, s)) := by
  rcases h with hnone | ⟨t, e, htok, hver⟩
  · refine ⟨⟨401, "Not authenticated", some "Bearer"⟩, rfl, rfl, ?_, ?_⟩ <;>
      intro s <;>
      simp [guardedSearchPatients, guardedImportPatients, get_current_user,
        hnone]
  · refine ⟨⟨401, e, some "Bearer"⟩, rfl, rfl, ?_, ?_⟩ <;>
      intro s <;>
      simp [guardedSearchPatients, guardedImportPatients, get_current_user,
        htok, hver]

theorem unauthorized_requests_rejected_before_store_witness :
    ∃ r : AuthFailureResp, r.status = 401 ∧ r.wwwAuthenticate = some "Bearer" ∧
      guardedSearchPatients fxVerifyReject (some "bad-token") (some "1419")
        none fxStoreX = (.unauthorized r, fxStoreX) ∧
      guardedImportPatients fxVerifyReject (some "bad-token") fxRegTwoNew
        "02718" emptyStore = (.unauthorized r, emptyStore) := by
  obtain ⟨r, h1, h2, h3, h4⟩ :=
    unauthorized_requests_rejected_before_store fxVerifyReject
      (some "bad-token") fxRegTwoNew "02718" (some "1419") none
      (Or.inr ⟨"bad-token", "Invalid token", rfl, rfl⟩)
  exact ⟨r, h1, h2, h3 fxStoreX, h4 emptyStore⟩

theorem storeInvB_shape (s s1 : Store) (ext : List PatientRow)
    (hinv : storeInvB s = true)
    (hp : s1.patients = s.patients ++ ext)
    (ho : s1.observations = s.observations) :
    storeInvB s1 = true := by
  simp only [storeInvB, List.all_eq_true] at hinv ⊢
  intro o hoo
  rw [ho] at hoo
  have hold := hinv o hoo
  cases hc : o.patient_id with
  | none => simp [hc]
  | some pid =>
    rw [hc] at hold
    simp only [Option.all_some] at hold ⊢
    rw [hp, List.any_append, hold]
    rfl

theorem insertObservation_invB (s : Store) (pid : Nat) (rt st : String)
    (hinv : storeInvB s = true) (hmem : ∃ p ∈ s.patients, p.id = pid) :
    storeInvB (insertObservation s (some pid) rt st) = true := by
  obtain ⟨p, hpm, hpi⟩ := hmem
  simp only [storeInvB, insertObservation, List.all_append,
    Bool.and_eq_true] at hinv ⊢
  refine ⟨hinv, ?_⟩
  simp only [List.all_cons, List.all_nil, Bool.and_true, Option.all_some]
  exact List.any_eq_true.mpr ⟨p, hpm, by simp [hpi]⟩

theorem fetch_first_obs_invB (reg : Registry) (pid : Nat) (s : Store)
    (hinv : storeInvB s = true) :
    storeInvB (fetch_and_store_first_observation reg pid s).1 = true := by
  cases hg : storeGetPatient s pid with
  | none => simpa [fetch_and_store_first_observation, hg] using hinv
  | some patient =>
    cases hr : reg.obsResponse (subjectKey patient) with
    | error f =>
      simpa [fetch_and_store_first_observation, hg, hr] using hinv
    | ok data =>
      cases hf : firstObservationFields data with
      | error e =>
        simpa [fetch_and_store_first_observation, hg, hr, hf] using hinv
      | ok pair =>
        obtain ⟨rt, st⟩ := pair
        simp only [fetch_and_store_first_observation, hg, hr, hf]
        refine insertObservation_invB s patient.id rt st hinv ⟨patient, ?_, rfl⟩
        unfold storeGetPatient at hg
        exact List.mem_of_find?_eq_some hg

theorem storeObservationsLoop_invB (reg : Registry) (ids : List Nat)
    (s : Store) (hinv : storeInvB s = true) :
    storeInvB (storeObservationsLoop reg s ids).1 = true := by
  induction ids generalizing s with
  | nil => exact hinv
  | cons pid rest ih =>
    have h1 := fetch_first_obs_invB reg pid s hinv
    unfold storeObservationsLoop
    cases hstep : fetch_and_store_first_observation reg pid s with
    | mk s1 res =>
      rw [hstep] at h1
      cases res with
      | error e => exact h1
      | ok v => exact ih s1 h1

theorem importSingleObservation_shape (reg : Registry) (pid : Nat) (s : Store)
    (hinv : storeInvB s = true) :
    storeInvB (importSingleObservation reg pid s).1 = true ∧
    (importSingleObservation reg pid s).1.patients = s.patients := by
  cases hg : storeGetPatient s pid with
  | none =>
    exact ⟨by simpa [importSingleObservation, hg] using hinv,
      by simp [importSingleObservation, hg]⟩
  | some patient =>
    cases hr : reg.obsResponse (subjectKey patient) with
    | error f =>
      exact ⟨by simpa [importSingleObservation, hg, hr] using hinv,
        by simp [importSingleObservation, hg, hr]⟩
    | ok data =>
      cases hd : data.entry.getD [] with
      | nil =>
        constructor <;> simp [importSingleObservation, hg, hr, hd, hinv]
      | cons e rest =>
        by_cases ht : (data.total.getD 0) > 0
        · have hins : importSingleObservation reg pid s =
              (insertObservation s (some patient.id)
                  ((e.resource.getD ⟨none, none⟩).resourceType.getD "unknown")
                  ((e.resource.getD ⟨none, none⟩).status.getD "unknown"),
                .ok ("Observation stored for patient " ++ toString pid ++ ".",
                  some s.nextObservationId)) := by
            simp [importSingleObservation, hg, hr, hd, ht]
          rw [hins]
          refine ⟨insertObservation_invB s patient.id _ _ hinv
            ⟨patient, ?_, rfl⟩, rfl⟩
          unfold storeGetPatient at hg
          exact List.mem_of_find?_eq_some hg
        · constructor <;> simp [importSingleObservation, hg, hr, hd, ht, hinv]

/-- C8: every operation of the system preserves referential integrity —
each stored observation with a non-null patient reference resolves to an
existing patient row — and no operation removes or rewrites patient rows
(the patient table only ever grows by appending). -/
theorem operations_preserve_reference_integrity (reg : Registry) (pc : String)
    (pid : Nat) (s : Store) (hinv : storeInvB s = true) :
    (storeInvB (fetch_and_store_patients_by_postal_code reg pc s).1 = true ∧
      ∃ ext, (fetch_and_store_patients_by_postal_code reg pc s).1.patients =
        s.patients ++ ext) ∧
    (storeInvB (fetch_and_store_first_observation reg pid s).1 = true ∧
      (fetch_and_store_first_observation reg pid s).1.patients = s.patients) ∧
    (storeInvB (importSingleObservation reg pid s).1 = true ∧
      (importSingleObservation reg pid s).1.patients = s.patients) := by
  refine ⟨?_, ⟨fetch_first_obs_invB reg pid s hinv,
      fetch_first_obs_patients_eq reg pid s⟩,
    importSingleObservation_shape reg pid s hinv⟩
  cases hp : reg.patientResponse pc with
  | error f =>
    exact ⟨by simpa [fetch_and_store_patients_by_postal_code, hp] using hinv,
      ⟨[], by simp [fetch_and_store_patients_by_postal_code, hp]⟩⟩
  | ok bundle =>
    obtain ⟨ext, hext⟩ :=
      storePatientsLoop_patients_extend (bundle.entry.getD []) s []
    have hobseq := storePatientsLoop_observations_eq (bundle.entry.getD []) s []
    cases h1 : storePatientsLoop s (bundle.entry.getD []) [] with
    | mk s1a res1 =>
      rw [h1] at hext hobseq
      have hinv1 : storeInvB s1a = true :=
        storeInvB_shape s s1a ext hinv hext hobseq
      cases res1 with
      | error e =>
        constructor
        · simpa [fetch_and_store_patients_by_postal_code, hp, h1] using hinv1
        · exact ⟨ext, by
            simpa [fetch_and_store_patients_by_postal_code, hp, h1] using hext⟩
      | ok saved =>
        have hinv2 := storeObservationsLoop_invB reg saved s1a hinv1
        have hpats2 := storeObservationsLoop_patients_eq reg saved s1a
        cases h2 : storeObservationsLoop reg s1a saved with
        | mk s2a res2 =>
          rw [h2] at hinv2 hpats2
          cases res2 with
          | error e =>
            constructor
            · simpa [fetch_and_store_patients_by_postal_code, hp, h1, h2]
                using hinv2
            · exact ⟨ext, by
                rw [show (fetch_and_store_patients_by_postal_code reg pc s).1 =
                    s2a by
                  simp [fetch_and_store_patients_by_postal_code, hp, h1, h2]]
                rw [hpats2]
                exact hext⟩
          | ok u =>
            constructor
            · simpa [fetch_and_store_patients_by_postal_code, hp, h1, h2]
                using hinv2
            · exact ⟨ext, by
                rw [show (fetch_and_store_patients_by_postal_code reg pc s).1 =
                    s2a by
                  simp [fetch_and_store_patients_by_postal_code, hp, h1, h2]]
                rw [hpats2]
                exact hext⟩

theorem operations_preserve_reference_integrity_witness :
    (storeInvB (fetch_and_store_patients_by_postal_code fxRegTwoNew "02718"
        emptyStore).1 = true ∧
      ∃ ext, (fetch_and_store_patients_by_postal_code fxRegTwoNew "02718"
        emptyStore).1.patients = emptyStore.patients ++ ext) ∧
    (storeInvB (fetch_and_store_first_observation fxRegTwoNew 1
        emptyStore).1 = true ∧
      (fetch_and_store_first_observation fxRegTwoNew 1
        emptyStore).1.patients = emptyStore.patients) ∧
    (storeInvB (importSingleObservation fxRegTwoNew 1 emptyStore).1 = true ∧
      (importSingleObservation fxRegTwoNew 1 emptyStore).1.patients =
        emptyStore.patients) :=
  operations_preserve_reference_integrity fxRegTwoNew "02718" 1 emptyStore
    (by decide)

/-- C9 (counterexample): a registry patient resource whose `name` key is
present and holds an empty list makes the extraction raise `IndexError`
instead of yielding any first name — "never fails" is false, and so is
"empty string whenever the name list is ... empty". -/
theorem extraction_raises_on_empty_name_list :
    extractFirstNameRaw fxEmptyNameResource = .error .indexError ∧
    ∀ nm : String, extractFirstNameRaw fxEmptyNameResource ≠ .ok nm :=
  ⟨rfl, fun _ h => Except.noConfusion h⟩

/-- C9 (amended): for every registry patient resource except those whose
name list is present but empty, the extraction succeeds, and the stored
(stripped) first name is exactly what the specification words describe:
the whitespace-trimmed first element of the first name's given list, or
the empty string when the name list is absent or the given list is absent
or empty. -/
theorem extract_first_name_matches_spec (res : PatientResource)
    (h : res.name ≠ some []) :
    extractFirstNameRaw res = .ok (pyFirstNameOf res) ∧
    pyStrip (pyFirstNameOf res) = specFirstName res := by
  refine ⟨extractFirstNameRaw_ok res h, ?_⟩
  cases hn : res.name with
  | none => simp [pyFirstNameOf, specFirstName, hn, pyStrip]
  | some l =>
    cases l with
    | nil => exact absurd hn h
    | cons n rest =>
      simp only [pyFirstNameOf, specFirstName, hn]
      cases hg : n.given with
      | none => simp [hg, pyStrip]
      | some gl =>
        cases gl with
        | nil => simp [hg, pyStrip]
        | cons g grest => simp [hg]

theorem extract_first_name_matches_spec_witness :
    extractFirstNameRaw fxJohnResource = .ok "  John  " ∧
    pyStrip "  John  " = specFirstName fxJohnResource ∧
    specFirstName fxJohnResource = "John" := by
  have h := extract_first_name_matches_spec fxJohnResource (by decide)
  exact ⟨h.1, h.2, by decide⟩

/-- C10: the claim (and the spec's data model, and `main.py`, which passes
`resource.get("gender")` — possibly `None` — straight into the row) says an
entry with absent gender/birthDate still imports, storing the value as
null; but the `Patient` model declares `gender` and `birth_date` as
required non-Optional fields, hence NOT NULL columns, so `session.commit()`
raises `IntegrityError` and the import fails with nothing stored.
Evaluated at the failing input — one registry entry with external id "g1",
given name "Ann", gender and birthDate absent, against an empty store:
the import returns the store unchanged and raises, and the commit itself
is the step that rejects the null values. -/
theorem import_absent_gender_aborts :
    (fetch_and_store_patients_by_postal_code fxRegNoGender "00000"
        emptyStore).2 = .error .integrityError ∧
    (fetch_and_store_patients_by_postal_code fxRegNoGender "00000"
        emptyStore).1 = emptyStore ∧
    insertPatient emptyStore (some "g1") "Ann" none none =
      .error .integrityError :=
  ⟨rfl, rfl, rfl⟩

end Eir
